import Mathlib

/-!
Verification development for the Deep-Work repository (src/main.js).

The JavaScript source is shallowly embedded: pure computations become Lean
functions; interactions with the operating system (filesystem reads, process
enumeration, network probes, the clock) are parameters gathered in explicit
"world" structures, and the module-level mutable variables become explicit
state records threaded through the functions. Line numbers in doc comments
refer to src/main.js.
-/

namespace DeepWork

/-- Filesystem paths, modeled as the list of path components of an already
normalized path (the output of path.normalize, split on the separator). -/
abbrev Path := List String

/-- Prefix test on strings, modeling JavaScript String.prototype.startsWith. -/
def strStartsWith (s pre : String) : Bool :=
  pre.data.isPrefixOf s.data

/-- Substring test, modeling JavaScript String.prototype.includes. -/
def strContains (s needle : String) : Bool :=
  s.data.tails.any (fun t => needle.data.isPrefixOf t)

/-- Lower-casing, modeling String.prototype.toLowerCase (per-character). -/
def strToLower (s : String) : String :=
  String.mk (s.data.map Char.toLower)

/-- ASCII whitespace, for trimming command output. -/
def isWsChar (c : Char) : Bool :=
  c == ' ' || c == '\t' || c == '\n' || c == '\r'

/-- Whitespace trimming, modeling String.prototype.trim. -/
def strTrim (s : String) : String :=
  String.mk (((s.data.dropWhile isWsChar).reverse.dropWhile isWsChar).reverse)

/-- DEFAULT_DEBUG_PORT (line 11). -/
def DEFAULT_DEBUG_PORT : Nat := 9222

/-- ALT_DEBUG_PORT (line 12). -/
def ALT_DEBUG_PORT : Nat := 9223

/-- process.platform, restricted to the three cases the source distinguishes
(anything that is neither win32 nor darwin takes the linux branch). -/
inductive Platform
  | win32
  | darwin
  | linux
deriving DecidableEq, Repr

/-- path.basename of a normalized path: its last component (empty for the
empty path). -/
def basenameOf (p : Path) : String :=
  p.getLast?.getD ""

/-- The two module-level profile-selection variables, selectedProfileName and
chromeUserDataRootOverride (lines 23–24). -/
structure ProfileResolution where
  selectedProfileName : Option String
  chromeUserDataRootOverride : Option Path
deriving DecidableEq, Repr

/-- Profile resolution from the two environment settings (lines 23–35).
An unset variable and a blank/empty string are both modeled as none: line 23
uses JS truthiness (PROFILE_NAME_ENV || null, empty string is falsy) and
line 26 guards with PROFILE_DIR_ENV && PROFILE_DIR_ENV.trim().
The dropLast of a component list models path.dirname of a normalized path,
and basenameOf models path.basename. -/
def resolveProfile (profileNameEnv : Option String) (profileDirEnv : Option Path) :
    ProfileResolution :=
  let selected0 : Option String := profileNameEnv
  match profileDirEnv with
  | none => { selectedProfileName := selected0, chromeUserDataRootOverride := none }
  | some normalized =>
    let baseName := basenameOf normalized
    if strToLower baseName = "user data" then
      { selectedProfileName := selected0, chromeUserDataRootOverride := some normalized }
    else
      -- line 32: selectedProfileName = selectedProfileName || baseName
      { selectedProfileName := some (selected0.getD baseName),
        chromeUserDataRootOverride := some normalized.dropLast }

/-- Configuration values read once from the environment at startup. -/
structure Env where
  platform : Platform
  /-- process.env.HOME, the empty string when unset (lines 40–41). -/
  home : String
  /-- process.env.LOCALAPPDATA, the empty string when unset (line 39). -/
  localAppData : String
  /-- FORCE_KILL_CHROME, i.e. CHROME_FORCE_KILL === '1' (line 15). -/
  forceKillChrome : Bool
  /-- CHROME_DEBUG_PORT when it parses to a finite number, else none (lines 17–18). -/
  debugPortEnv : Option Nat

/-- DEBUG_PORT (line 18): the environment port when finite, else the default. -/
def Env.DEBUG_PORT (e : Env) : Nat :=
  e.debugPortEnv.getD DEFAULT_DEBUG_PORT

/-- defaultChromeUserDataRoot (lines 37–42). -/
def defaultChromeUserDataRoot (e : Env) : Path :=
  match e.platform with
  | .win32 => [e.localAppData, "Google", "Chrome", "User Data"]
  | .darwin => [e.home, "Library", "Application Support", "Google", "Chrome"]
  | .linux => [e.home, ".config", "google-chrome"]

/-- chromeUserDataRoot (lines 44–46). -/
def chromeUserDataRoot (e : Env) (res : ProfileResolution) : Path :=
  res.chromeUserDataRootOverride.getD (defaultChromeUserDataRoot e)

/-- JSON values, as produced by JSON.parse (numbers as integers; fractional
values play no role in the fields the source inspects). -/
inductive J
  | null
  | bool (b : Bool)
  | num (n : Int)
  | str (s : String)
  | arr (elems : List J)
  | obj (fields : List (String × J))

/-- JavaScript truthiness of a JSON value. -/
def jTruthy : J → Bool
  | .null => false
  | .bool b => b
  | .num n => n != 0
  | .str s => s != ""
  | .arr _ => true
  | .obj _ => true

/-- JS property access v[k] on a parsed JSON value: object fields by name,
anything else yields undefined (none). Access on null would throw; callers
model that case explicitly by matching .null first. -/
def jGet : J → String → Option J
  | .obj fields, k => fields.lookup k
  | _, _ => none

/-- JS `v || d` applied to a possibly-undefined value (none models undefined). -/
def jOrElse (v : Option J) (d : J) : J :=
  match v with
  | some x => if jTruthy x then x else d
  | none => d

/-- Outcome of reading and parsing a file: existsSync false, readFileSync
throwing, JSON.parse throwing, or parsed content. -/
inductive FileRead
  | missing
  | unreadable
  | malformed
  | json (j : J)

/-- The filesystem as observed by the program. -/
structure FsWorld where
  /-- Combined existsSync + readFileSync + JSON.parse outcome for a file. -/
  readFile : Path → FileRead
  /-- fs.existsSync for the singleton-lock probes. -/
  fsExists : Path → Bool
  /-- Whether the body of chromeProfileLikelyLocked throws (its catch). -/
  lockCheckThrows : Bool

/-- getUserDataDir (lines 66–69): currentUserDataDir when set, else the root. -/
def getUserDataDir (e : Env) (res : ProfileResolution) (currentUserDataDir : Option Path) :
    Path :=
  currentUserDataDir.getD (chromeUserDataRoot e res)

/-- readActiveProfileName (lines 71–86). Returns the JSON value the source
returns (a profile name in well-formed states). Every throwing path is
caught and collapsed to none, including property access on a parsed null. -/
def readActiveProfileName (e : Env) (res : ProfileResolution)
    (currentUserDataDir : Option Path) (fs : FsWorld) : Option J :=
  match fs.readFile (getUserDataDir e res currentUserDataDir ++ ["Local State"]) with
  | .missing => none
  | .unreadable => none
  | .malformed => none
  | .json parsed =>
    match parsed with
    | .null => none
    | j =>
      let profile := jOrElse (jGet j "profile") (J.obj [])
      match jGet profile "last_active_profiles" with
      | some (J.arr (x :: _)) => some x
      | _ =>
        match jGet profile "last_used" with
        | some (J.str s) => some (J.str s)
        | _ => none

/-- One entry produced by getAvailableProfiles (lines 98–102). The display
name is kept as a JSON value because the source passes through whatever
truthy value the info cache holds. -/
structure ProfileDescriptor where
  id : String
  name : J
  path : Path

/-- Object.keys on a parsed JSON value, for the info-cache obj. Degenerate
non-object values (only reachable when the persisted file is unusual) are
modeled as keyless. -/
def jKeys : J → List String
  | .obj fields => fields.map (fun f => f.1)
  | _ => []

/-- getAvailableProfiles (lines 88–107). Optional chaining
json?.profile?.info_cache is null/undefined-safe, then `|| {}` replaces any
falsy result; every throwing path is caught and collapsed to []. -/
def getAvailableProfiles (e : Env) (res : ProfileResolution) (fs : FsWorld) :
    List ProfileDescriptor :=
  let baseDir := chromeUserDataRoot e res
  match fs.readFile (baseDir ++ ["Local State"]) with
  | .missing => []
  | .unreadable => []
  | .malformed => []
  | .json j =>
    let step1 : Option J :=
      match j with
      | .null => none
      | v => jGet v "profile"
    let infoCacheOpt : Option J :=
      match step1 with
      | some .null => none
      | some v => jGet v "info_cache"
      | none => none
    let infoCache := jOrElse infoCacheOpt (J.obj [])
    (jKeys infoCache).map (fun key =>
      { id := key
        name := jOrElse
          ((jGet infoCache key).bind (fun v =>
            match v with
            | .null => none
            | v2 => jGet v2 "name"))
          (J.str key)
        path := baseDir ++ [key] })

/-- Raw results of the process-enumeration commands, as observed by
chromeProcessesRunning. none models the exec call itself throwing. -/
structure ProcWorld where
  /-- PowerShell Get-Process count: none when the exec throws; some none when
  the output does not parse to a finite number; some (some n) otherwise. -/
  powershellN : Option (Option Int)
  /-- tasklist CSV output (win32 fallback); none when the exec throws. -/
  tasklistOut : Option String
  /-- pgrep output (darwin and linux; the command name differs per platform
  but the output handling is identical); none when the exec throws. -/
  pgrepOut : Option String

/-- chromeProcessesRunning (lines 109–148). The outer catch turns any
enumeration failure into false. -/
def chromeProcessesRunning (platform : Platform) (w : ProcWorld) : Bool :=
  match platform with
  | .win32 =>
    match w.powershellN with
    | some (some n) => decide (0 < n)
    | _ =>
      match w.tasklistOut with
      | some out => strContains (strToLower out) "\"chrome.exe\""
      | none => false
  | .darwin =>
    match w.pgrepOut with
    | some out => strTrim out != ""
    | none => false
  | .linux =>
    match w.pgrepOut with
    | some out => strTrim out != ""
    | none => false

/-- The singleton-lock candidate paths built by chromeProfileLikelyLocked
(lines 154–167). -/
def lockCandidates (e : Env) (res : ProfileResolution) : List Path :=
  let baseDir := chromeUserDataRoot e res
  let base := [baseDir ++ ["SingletonLock"], baseDir ++ ["SingletonSocket"],
               baseDir ++ ["SingletonCookie"]]
  match res.selectedProfileName with
  | some p =>
    let profileDir := baseDir ++ [p]
    base ++ [profileDir ++ ["SingletonLock"], profileDir ++ ["SingletonSocket"],
             profileDir ++ ["SingletonCookie"]]
  | none => base

/-- chromeProfileLikelyLocked (lines 150–173): any lock candidate exists;
its catch degrades a failure to false. -/
def chromeProfileLikelyLocked (e : Env) (res : ProfileResolution) (fs : FsWorld) : Bool :=
  if fs.lockCheckThrows then false
  else (lockCandidates e res).any fs.fsExists

/-- The combined conflict check at line 410 of ensureChromeDebugging:
chromeProcessesRunning() || (process.platform === 'win32' &&
chromeProfileLikelyLocked()). -/
def chromeRunningCheck (e : Env) (res : ProfileResolution) (pw : ProcWorld)
    (fs : FsWorld) : Bool :=
  chromeProcessesRunning e.platform pw ||
    (decide (e.platform = Platform.win32) && chromeProfileLikelyLocked e res fs)

/-- The abort flags and per-attempt probe outcomes observed by the
waitForDebugPort loop: launchedChromeSpawnError, launchedChromeExited, and
the checkChromeDebugging result, each as seen at attempt i. -/
structure WaitWorld where
  spawnErrorAt : Nat → Bool
  exitedAt : Nat → Bool
  reachableAt : Nat → Nat → Bool

/-- Loop body of waitForDebugPort (lines 360–380), recursing on the number of
remaining attempts with i the current attempt index. Returns the loop result
together with the number of port probes actually performed. The delayMs
parameter only paces the loop in real time and is not modeled. -/
def waitGo (w : WaitWorld) (port : Nat) : Nat → Nat → Bool × Nat
  | _, 0 => (false, 0)
  | i, rem + 1 =>
    if w.spawnErrorAt i then (false, 0)
    else if w.exitedAt i then (false, 0)
    else if w.reachableAt i port then (true, 1)
    else
      let r := waitGo w port (i + 1) rem
      (r.1, r.2 + 1)

/-- waitForDebugPort (lines 358–383), with its default attempt bound of 240. -/
def waitForDebugPort (w : WaitWorld) (port : Nat) (attempts : Nat := 240) : Bool × Nat :=
  waitGo w port 0 attempts

/-- The module-level session variables mutated by ensureChromeDebugging:
currentDebugPort, lastStatusMessage, detectedActiveProfile,
currentUserDataDir, and whether launchedChrome holds a handle. -/
structure SessState where
  currentDebugPort : Nat
  lastStatusMessage : String
  detectedActiveProfile : Option J
  currentUserDataDir : Option Path
  launchedChromeSet : Bool

/-- External observations made during one run of ensureChromeDebugging. -/
structure SessWorld where
  /-- checkChromeDebugging outcome per port for the three initial probes. -/
  reachable : Nat → Bool
  proc : ProcWorld
  fs : FsWorld
  /-- findChromeExecutable result (lines 261–290); only affects logging. -/
  foundExecutable : Option String
  /-- Whether launchChromeWithDebugging rejects with a spawn error. -/
  spawnThrows : Bool
  /-- err.message of that rejection. -/
  spawnErrMsg : String
  /-- Observations of the polling wait after a successful spawn. -/
  wait : WaitWorld

/-- Result of one ensureChromeDebugging run: its boolean outcome, the session
state afterwards, and whether launchChromeWithDebugging was invoked. -/
structure EnsureResult where
  ok : Bool
  state : SessState
  launcherInvoked : Bool

/-- Status string of the three probe-success branches (lines 389, 396, 403). -/
def connectedMsg (port : Nat) : String :=
  "Connected to Chrome on port " ++ toString port

/-- Status string of the conflict standoff (line 412). -/
def standoffMsg : String :=
  "Chrome is running but remote debugging is off. Close Chrome or set CHROME_FORCE_KILL=1, then Refresh."

/-- Hint appended when the launched process never opens the port (lines 442–444). -/
def launchFailHint (forceKill : Bool) : String :=
  if forceKill then
    "Chrome failed to open the debug port. Check the [CHROME] logs above for errors."
  else
    "Chrome may already be running or the profile is locked. Close Chrome or set CHROME_FORCE_KILL=1."

/-- ensureChromeDebugging (lines 385–451). The three probes come first, in the
fixed order current/default/alternate; then the conflict check, the (possibly
skipped) force-kill, the launch, and the bounded wait. forceKillChrome only
has external process/filesystem effects and returns no value, so it leaves no
trace in the modeled state; launchChromeWithDebugging is invoked with the
default port (line 427) and on success sets currentUserDataDir (line 353). -/
def ensureChromeDebugging (e : Env) (res : ProfileResolution) (w : SessWorld)
    (s : SessState) : EnsureResult :=
  if w.reachable s.currentDebugPort then
    { ok := true, launcherInvoked := false,
      state := { s with
        detectedActiveProfile := readActiveProfileName e res s.currentUserDataDir w.fs,
        lastStatusMessage := connectedMsg s.currentDebugPort } }
  else if w.reachable e.DEBUG_PORT then
    { ok := true, launcherInvoked := false,
      state := { s with
        currentDebugPort := e.DEBUG_PORT,
        detectedActiveProfile := readActiveProfileName e res s.currentUserDataDir w.fs,
        lastStatusMessage := connectedMsg e.DEBUG_PORT } }
  else if ALT_DEBUG_PORT ≠ e.DEBUG_PORT ∧ w.reachable ALT_DEBUG_PORT = true then
    { ok := true, launcherInvoked := false,
      state := { s with
        currentDebugPort := ALT_DEBUG_PORT,
        detectedActiveProfile := readActiveProfileName e res s.currentUserDataDir w.fs,
        lastStatusMessage := connectedMsg ALT_DEBUG_PORT } }
  else
    let chromeRunning := chromeRunningCheck e res w.proc w.fs
    if chromeRunning && !e.forceKillChrome then
      { ok := false, launcherInvoked := false,
        state := { s with lastStatusMessage := standoffMsg } }
    else
      if w.spawnThrows then
        { ok := false, launcherInvoked := true,
          state := { s with
            lastStatusMessage := "Failed to launch Chrome: " ++ w.spawnErrMsg } }
      else
        let s1 : SessState := { s with
          currentDebugPort := e.DEBUG_PORT,
          currentUserDataDir := some (chromeUserDataRoot e res),
          launchedChromeSet := true }
        let waited := (waitForDebugPort w.wait s1.currentDebugPort).1
        let s2 : SessState := { s1 with
          detectedActiveProfile := readActiveProfileName e res s1.currentUserDataDir w.fs }
        if waited then
          { ok := true, launcherInvoked := true,
            state := { s2 with
              lastStatusMessage :=
                "Launched Chrome with remote debugging on port " ++
                  toString s2.currentDebugPort } }
        else
          { ok := false, launcherInvoked := true,
            state := { s2 with
              lastStatusMessage :=
                "Failed to launch Chrome remote debugging on port " ++
                  toString s2.currentDebugPort ++ ". " ++
                  launchFailHint e.forceKillChrome } }

/-- One tab registry entry (line 61). -/
structure Tab where
  id : String
  title : String
  url : String
  createdAt : Nat
  isInitial : Bool
deriving DecidableEq, Repr

/-- A protocol targetInfo payload, restricted to the fields the source reads.
The protocol always delivers string titles and urls, so the defensive
`typeof url === 'string'` checks are identically true in this model and the
`title || ''` / `url || ''` coalescing is the identity. -/
structure TargetInfo where
  targetId : String
  type : String
  title : String
  url : String
deriving DecidableEq, Repr

/-- Map.prototype.get on the tabsById map (association list). -/
def mapFind (id : String) : List (String × Tab) → Option Tab
  | [] => none
  | kv :: rest => if kv.1 = id then some kv.2 else mapFind id rest

/-- Map.prototype.set: bind id to t, replacing any previous binding. -/
def mapSet (id : String) (t : Tab) (m : List (String × Tab)) : List (String × Tab) :=
  (id, t) :: m.filter (fun p => p.1 != id)

/-- Map.prototype.delete. -/
def mapDelete (id : String) (m : List (String × Tab)) : List (String × Tab) :=
  m.filter (fun p => p.1 != id)

/-- Set.prototype.add on the initialTabIds set. -/
def setAdd (id : String) (s : List String) : List String :=
  if s.contains id then s else id :: s

/-- The module-level tab-tracking variables (lines 49, 58–64): the current
debug port, whether cdpClient is non-null, cdpPort, tabStateStartedAt, the
registry, the initial-id set, and how many sets of lifecycle-event handlers
are installed on the live client (handlers die with the client on close). -/
structure TrackState where
  currentDebugPort : Nat
  cdpConnected : Bool
  cdpPort : Option Nat
  tabStateStartedAt : Nat
  tabsById : List (String × Tab)
  initialTabIds : List String
  subscriptionSets : Nat
deriving DecidableEq, Repr

/-- stopTabTracking (lines 470–484): clears the registry, the initial-id set,
the epoch timestamp and the recorded port, and closes the client (which also
cancels its event subscriptions). -/
def stopTabTracking (s : TrackState) : TrackState :=
  { s with
    tabsById := [], initialTabIds := [], tabStateStartedAt := 0,
    cdpPort := none, cdpConnected := false, subscriptionSets := 0 }

/-- One iteration of the seed loop of ensureTabTracking (lines 504–517). -/
def seedTarget (startedAt : Nat) (s : TrackState) (info : TargetInfo) : TrackState :=
  if info.type ≠ "page" then s
  else if strStartsWith info.url "devtools://" then s
  else
    let tab : Tab :=
      { id := info.targetId, title := info.title, url := info.url,
        createdAt := startedAt, isInitial := true }
    { s with
      initialTabIds := setAdd info.targetId s.initialTabIds,
      tabsById := mapSet info.targetId tab s.tabsById }

/-- The Target.targetCreated handler (lines 519–533); now is Date.now() at
delivery time. The renderer snapshot emission has no effect on this state. -/
def onTargetCreated (now : Nat) (info : TargetInfo) (s : TrackState) : TrackState :=
  if info.type ≠ "page" then s
  else if strStartsWith info.url "devtools://" then s
  else
    let id := info.targetId
    let isInit := s.initialTabIds.contains id
    { s with
      tabsById := mapSet id
        { id := id, title := info.title, url := info.url,
          createdAt := now, isInitial := isInit } s.tabsById }

/-- The Target.targetInfoChanged handler (lines 535–549). The JS `||`
fallbacks are modeled exactly: an empty incoming title/url falls back to the
previous value (empty when there is none), a zero previous createdAt is falsy
and falls back to Date.now(), and the `??` on isInitial falls back to the
initial-id set only when no previous entry exists. -/
def onTargetInfoChanged (now : Nat) (info : TargetInfo) (s : TrackState) : TrackState :=
  if info.type ≠ "page" then s
  else if strStartsWith info.url "devtools://" then s
  else
    let id := info.targetId
    let prev := mapFind id s.tabsById
    let title :=
      if info.title ≠ "" then info.title
      else match prev with
        | some p => p.title
        | none => ""
    let url :=
      if info.url ≠ "" then info.url
      else match prev with
        | some p => p.url
        | none => ""
    let createdAt :=
      match prev with
      | some p => if p.createdAt ≠ 0 then p.createdAt else now
      | none => now
    let isInit :=
      match prev with
      | some p => p.isInitial
      | none => s.initialTabIds.contains id
    { s with
      tabsById := mapSet id
        { id := id, title := title, url := url,
          createdAt := createdAt, isInitial := isInit } s.tabsById }

/-- The Target.targetDestroyed handler (lines 551–555); the `if (!targetId)`
guard treats the empty string as falsy. -/
def onTargetDestroyed (targetId : String) (s : TrackState) : TrackState :=
  if targetId = "" then s
  else { s with tabsById := mapDelete targetId s.tabsById }

/-- One lifecycle notification delivered to the installed handlers. -/
inductive CdpEvent
  | created (now : Nat) (info : TargetInfo)
  | changed (now : Nat) (info : TargetInfo)
  | destroyed (targetId : String)

/-- Dispatch of one lifecycle notification. -/
def stepEvent (s : TrackState) : CdpEvent → TrackState
  | .created now info => onTargetCreated now info s
  | .changed now info => onTargetInfoChanged now info s
  | .destroyed tid => onTargetDestroyed tid s

/-- External observations made during one run of ensureTabTracking. -/
structure TrackWorld where
  /-- checkChromeDebugging outcome for the initial probe. -/
  reachable : Nat → Bool
  /-- Whether the CDP connection, setDiscoverTargets and getTargets all
  succeed (a failure anywhere in the try block lands in the catch). -/
  connectOk : Bool
  /-- Target.getTargets().targetInfos. -/
  targetInfos : List TargetInfo
  /-- Date.now() at the start of this run. -/
  now : Nat

/-- ensureTabTracking (lines 486–566): probe the current port, return early
when already connected to it, otherwise tear down, reconnect, seed the
registry from the target snapshot and install one set of lifecycle handlers;
a connection failure tears partial state down and reports false. -/
def ensureTabTracking (w : TrackWorld) (s : TrackState) : Bool × TrackState :=
  if !w.reachable s.currentDebugPort then (false, s)
  else if s.cdpConnected = true ∧ s.cdpPort = some s.currentDebugPort then (true, s)
  else
    let s1 := stopTabTracking s
    let s2 : TrackState := { s1 with
      tabStateStartedAt := w.now, cdpPort := some s1.currentDebugPort }
    if !w.connectOk then (false, stopTabTracking s2)
    else
      let s3 : TrackState := { s2 with cdpConnected := true }
      let s4 := w.targetInfos.foldl (seedTarget s3.tabStateStartedAt) s3
      let s5 : TrackState := { s4 with subscriptionSets := s4.subscriptionSets + 1 }
      (true, s5)

/-- A registry entry whose URL does not carry the internal-debugger prefix. -/
def cleanPair (p : String × Tab) : Bool :=
  !(strStartsWith p.2.url "devtools://")

/-- No entry of the registry has an internal-debugger URL. -/
def registryClean (s : TrackState) : Bool :=
  s.tabsById.all cleanPair

/-! Concrete fixtures used by the witness theorems below. -/

/-- A linux environment with force-kill disabled and no port override. -/
def envLinux : Env :=
  { platform := .linux, home := "/home/u", localAppData := "",
    forceKillChrome := false, debugPortEnv := none }

/-- A resolution with no selected profile and the root overridden. -/
def resRootOnly : ProfileResolution :=
  { selectedProfileName := none, chromeUserDataRootOverride := some ["root"] }

/-- A filesystem with no readable files and no lock artifacts. -/
def fsMissing : FsWorld :=
  { readFile := fun _ => .missing, fsExists := fun _ => false, lockCheckThrows := false }

/-- A filesystem whose only visible artifact is the root SingletonLock. -/
def fsLockOnly : FsWorld :=
  { readFile := fun _ => .missing,
    fsExists := fun p => p == ["root", "SingletonLock"], lockCheckThrows := false }

/-- Process enumeration finding nothing. -/
def procIdle : ProcWorld :=
  { powershellN := none, tasklistOut := none, pgrepOut := some "" }

/-- Process enumeration finding a chrome process. -/
def procBusy : ProcWorld :=
  { powershellN := none, tasklistOut := none, pgrepOut := some "chrome" }

/-- A wait in which the spawn-failure flag is set from the start. -/
def waitStuck : WaitWorld :=
  { spawnErrorAt := fun _ => true, exitedAt := fun _ => false,
    reachableAt := fun _ _ => false }

/-- A session state remembering the given port. -/
def sessAt (port : Nat) : SessState :=
  { currentDebugPort := port, lastStatusMessage := "", detectedActiveProfile := none,
    currentUserDataDir := none, launchedChromeSet := false }

/-- A world in which only the default port 9222 answers. -/
def sessWorldDefaultUp : SessWorld :=
  { reachable := fun p => p == 9222, proc := procIdle, fs := fsMissing,
    foundExecutable := none, spawnThrows := false, spawnErrMsg := "", wait := waitStuck }

/-- A world in which no port answers and a chrome process is running. -/
def sessWorldAllDown : SessWorld :=
  { reachable := fun _ => false, proc := procBusy, fs := fsMissing,
    foundExecutable := none, spawnThrows := false, spawnErrMsg := "", wait := waitStuck }

/-- A previously tracked tab used by the witness states. -/
def prevTab : Tab :=
  { id := "t1", title := "Old title", url := "http://a.example/", createdAt := 100,
    isInitial := true }

/-- A tracking state connected to port 9222 with one tracked tab. -/
def trackConnected : TrackState :=
  { currentDebugPort := 9222, cdpConnected := true, cdpPort := some 9222,
    tabStateStartedAt := 3, tabsById := [("t1", prevTab)], initialTabIds := ["t1"],
    subscriptionSets := 1 }

/-- A tracking world in which every port answers and connection succeeds. -/
def trackWorldUp : TrackWorld :=
  { reachable := fun _ => true, connectOk := true,
    targetInfos := [{ targetId := "t1", type := "page", title := "Seed",
                      url := "http://a.example/" },
                    { targetId := "d1", type := "page", title := "DevTools",
                      url := "devtools://devtools/bundled/inspector.html" }],
    now := 50 }

/-- A tracking world in which no port answers. -/
def trackWorldDown : TrackWorld :=
  { reachable := fun _ => false, connectOk := true, targetInfos := [], now := 50 }

/-- A changed notification with empty incoming title and url. -/
def changedEmptyInfo : TargetInfo :=
  { targetId := "t1", type := "page", title := "", url := "" }

/-! Theorems. -/

/-- C1 counterexample: with both settings configured
(CHROME_PROFILE_NAME = "Profile 1",
CHROME_PROFILE_DIR = /home/u/.config/google-chrome/Profile 2, whose basename
is "Profile 2" and does not name the root container), the resolved profile
name is the name-only setting, not the directory basename — so the claimed
precedence (basename overrides the profile-name-only setting) is false. -/
theorem resolveProfile_precedence_counterexample :
    (resolveProfile (some "Profile 1")
        (some ["home", "u", ".config", "google-chrome", "Profile 2"])).selectedProfileName
      = some "Profile 1" ∧
    basenameOf ["home", "u", ".config", "google-chrome", "Profile 2"] = "Profile 2" ∧
    (resolveProfile (some "Profile 1")
        (some ["home", "u", ".config", "google-chrome", "Profile 2"])).selectedProfileName
      ≠ some "Profile 2" := by
  refine ⟨rfl, rfl, ?_⟩
  decide

/-- C1 (corrected): profile resolution precedence as the code implements it.
An explicit profile-name setting always wins for the profile name; an
explicit profile-directory path not naming the root container supplies the
user-data root (its parent) and supplies the profile name only when no
profile-name setting is present; a directory path naming the root container
is used as the root itself, deriving no profile name from it. -/
theorem resolveProfile_precedence (nameEnv : Option String) (dirEnv : Option Path) :
    (∀ n, nameEnv = some n →
      (resolveProfile nameEnv dirEnv).selectedProfileName = some n) ∧
    (∀ p, dirEnv = some p → strToLower (basenameOf p) ≠ "user data" →
      (resolveProfile nameEnv dirEnv).chromeUserDataRootOverride = some p.dropLast) ∧
    (∀ p, dirEnv = some p → strToLower (basenameOf p) = "user data" →
      (resolveProfile nameEnv dirEnv).chromeUserDataRootOverride = some p ∧
      (resolveProfile nameEnv dirEnv).selectedProfileName = nameEnv) ∧
    (∀ p, nameEnv = none → dirEnv = some p → strToLower (basenameOf p) ≠ "user data" →
      (resolveProfile nameEnv dirEnv).selectedProfileName = some (basenameOf p)) := by
  refine ⟨?_, ?_, ?_, ?_⟩
  · intro n hn
    subst hn
    cases dirEnv with
    | none => rfl
    | some p =>
      by_cases h : strToLower (basenameOf p) = "user data"
      · simp [resolveProfile, h]
      · simp [resolveProfile, h]
  · intro p hp h
    subst hp
    simp [resolveProfile, h]
  · intro p hp h
    subst hp
    simp [resolveProfile, h]
  · intro p hne hp h
    subst hne
    subst hp
    simp [resolveProfile, h]

/-- Witness for the corrected C1 precedence at concrete inputs. -/
theorem resolveProfile_precedence_witness :
    (resolveProfile (some "Profile 1") (some ["home", "Profile 2"])).selectedProfileName
      = some "Profile 1" ∧
    (resolveProfile (some "Profile 1") (some ["home", "Profile 2"])).chromeUserDataRootOverride
      = some ["home"] :=
  ⟨(resolveProfile_precedence (some "Profile 1") (some ["home", "Profile 2"])).1
      "Profile 1" rfl,
   (resolveProfile_precedence (some "Profile 1") (some ["home", "Profile 2"])).2.1
      ["home", "Profile 2"] rfl (by decide)⟩

/-- C2: when the remembered port does not answer and the configured default
port does, ensureChromeDebugging succeeds, adopts the default port as the
current debug port, and never invokes the launcher. -/
theorem ensure_default_port_fallback (e : Env) (res : ProfileResolution)
    (w : SessWorld) (s : SessState)
    (h1 : w.reachable s.currentDebugPort = false)
    (h2 : w.reachable e.DEBUG_PORT = true) :
    (ensureChromeDebugging e res w s).ok = true ∧
    (ensureChromeDebugging e res w s).state.currentDebugPort = e.DEBUG_PORT ∧
    (ensureChromeDebugging e res w s).launcherInvoked = false := by
  unfold ensureChromeDebugging
  simp [h1, h2]

/-- Witness for C2: remembered port 7000 down, default 9222 up. -/
theorem ensure_default_port_fallback_witness :
    (ensureChromeDebugging envLinux resRootOnly sessWorldDefaultUp (sessAt 7000)).ok = true ∧
    (ensureChromeDebugging envLinux resRootOnly sessWorldDefaultUp
        (sessAt 7000)).state.currentDebugPort = envLinux.DEBUG_PORT ∧
    (ensureChromeDebugging envLinux resRootOnly sessWorldDefaultUp
        (sessAt 7000)).launcherInvoked = false :=
  ensure_default_port_fallback envLinux resRootOnly sessWorldDefaultUp (sessAt 7000)
    rfl rfl

/-- C3: when all three port probes fail, the conflict check fires and
force-kill is disabled, ensureChromeDebugging fails, never invokes the
launcher, and the status string mentions both that Chrome is running and the
CHROME_FORCE_KILL option. -/
theorem ensure_conflict_standoff (e : Env) (res : ProfileResolution)
    (w : SessWorld) (s : SessState)
    (h1 : w.reachable s.currentDebugPort = false)
    (h2 : w.reachable e.DEBUG_PORT = false)
    (h3 : w.reachable ALT_DEBUG_PORT = false)
    (h4 : chromeRunningCheck e res w.proc w.fs = true)
    (h5 : e.forceKillChrome = false) :
    (ensureChromeDebugging e res w s).ok = false ∧
    (ensureChromeDebugging e res w s).launcherInvoked = false ∧
    strContains (ensureChromeDebugging e res w s).state.lastStatusMessage "running" = true ∧
    strContains (ensureChromeDebugging e res w s).state.lastStatusMessage
      "CHROME_FORCE_KILL" = true := by
  have hres : ensureChromeDebugging e res w s =
      { ok := false, launcherInvoked := false,
        state := { s with lastStatusMessage := standoffMsg } } := by
    unfold ensureChromeDebugging
    simp [h1, h2, h3, h4, h5]
  rw [hres]
  refine ⟨rfl, rfl, ?_, ?_⟩
  · show strContains standoffMsg "running" = true
    decide
  · show strContains standoffMsg "CHROME_FORCE_KILL" = true
    decide

/-- Witness for C3: all ports down, a chrome process detected, no force-kill. -/
theorem ensure_conflict_standoff_witness :
    (ensureChromeDebugging envLinux resRootOnly sessWorldAllDown (sessAt 7000)).ok = false ∧
    (ensureChromeDebugging envLinux resRootOnly sessWorldAllDown
        (sessAt 7000)).launcherInvoked = false ∧
    strContains (ensureChromeDebugging envLinux resRootOnly sessWorldAllDown
        (sessAt 7000)).state.lastStatusMessage "running" = true ∧
    strContains (ensureChromeDebugging envLinux resRootOnly sessWorldAllDown
        (sessAt 7000)).state.lastStatusMessage "CHROME_FORCE_KILL" = true :=
  ensure_conflict_standoff envLinux resRootOnly sessWorldAllDown (sessAt 7000)
    rfl rfl rfl (by rfl) rfl

/-- C8: whenever the persisted-state file is missing, unreadable or malformed
(wherever it would be read from), reading the active profile yields none and
enumerating profiles yields the empty list; both functions are total, so
neither can throw to its caller. -/
theorem metadata_degrades (e : Env) (res : ProfileResolution)
    (currentUserDataDir : Option Path) (fs : FsWorld)
    (h : ∀ p : Path,
      fs.readFile p = FileRead.missing ∨ fs.readFile p = FileRead.unreadable ∨
        fs.readFile p = FileRead.malformed) :
    readActiveProfileName e res currentUserDataDir fs = none ∧
    getAvailableProfiles e res fs = [] := by
  constructor
  · unfold readActiveProfileName
    rcases h (getUserDataDir e res currentUserDataDir ++ ["Local State"]) with h1 | h1 | h1 <;>
      rw [h1]
  · unfold getAvailableProfiles
    rcases h (chromeUserDataRoot e res ++ ["Local State"]) with h1 | h1 | h1 <;>
      simp [h1]

/-- Witness for C8 on a filesystem with no readable files. -/
theorem metadata_degrades_witness :
    readActiveProfileName envLinux resRootOnly none fsMissing = none ∧
    getAvailableProfiles envLinux resRootOnly fsMissing = [] :=
  metadata_degrades envLinux resRootOnly none fsMissing (fun _ => Or.inl rfl)

/-- The polling loop performs at most as many port probes as it has remaining
attempts. -/
theorem waitGo_probes_le (w : WaitWorld) (port : Nat) :
    ∀ rem i : Nat, (waitGo w port i rem).2 ≤ rem := by
  intro rem
  induction rem with
  | zero => intro i; simp [waitGo]
  | succ n ih =>
    intro i
    simp only [waitGo]
    by_cases h1 : w.spawnErrorAt i = true
    · simp [h1]
    · by_cases h2 : w.exitedAt i = true
      · simp [h1, h2]
      · by_cases h3 : w.reachableAt i port = true
        · simp [h1, h2, h3]
        · simp only [h1, h2, h3, if_false, Bool.false_eq_true]
          have := ih (i + 1)
          omega

/-- If an abort flag is set at attempt i plus k and no earlier probe of the
port succeeds, the polling loop reports false. -/
theorem waitGo_abort (w : WaitWorld) (port : Nat) :
    ∀ k rem i : Nat, k < rem →
      (w.spawnErrorAt (i + k) = true ∨ w.exitedAt (i + k) = true) →
      (∀ j, j ≤ k → w.reachableAt (i + j) port = false) →
      (waitGo w port i rem).1 = false := by
  intro k
  induction k with
  | zero =>
    intro rem i hlt hflag _
    obtain ⟨n, rfl⟩ : ∃ n, rem = n + 1 := ⟨rem - 1, by omega⟩
    simp only [waitGo]
    by_cases hs : w.spawnErrorAt i = true
    · simp [hs]
    · rcases hflag with hf | hf
      · simp [Nat.add_zero] at hf
        exact absurd hf hs
      · simp only [Nat.add_zero] at hf
        simp [hs, hf]
  | succ k ih =>
    intro rem i hlt hflag hreach
    obtain ⟨n, rfl⟩ : ∃ n, rem = n + 1 := ⟨rem - 1, by omega⟩
    simp only [waitGo]
    by_cases hs : w.spawnErrorAt i = true
    · simp [hs]
    · by_cases he : w.exitedAt i = true
      · simp [hs, he]
      · have hr0 : w.reachableAt i port = false := by
          have := hreach 0 (Nat.zero_le _)
          simpa using this
        simp only [hs, he, hr0, if_false, Bool.false_eq_true]
        apply ih n (i + 1) (by omega)
        · rcases hflag with hf | hf
          · left
            rw [show i + 1 + k = i + (k + 1) by omega]
            exact hf
          · right
            rw [show i + 1 + k = i + (k + 1) by omega]
            exact hf
        · intro j hj
          have := hreach (j + 1) (by omega)
          rw [show i + 1 + j = i + (j + 1) by omega]
          exact this

/-- C9: the wait for the debug port performs at most the configured maximum
number of probe attempts, and whenever the spawn-failure or premature-exit
flag is observed at some attempt before any probe has succeeded, the wait
reports false instead of polling on — in particular it always terminates. -/
theorem waitForDebugPort_bounded (w : WaitWorld) (port attempts i : Nat)
    (hlt : i < attempts)
    (hflag : w.spawnErrorAt i = true ∨ w.exitedAt i = true)
    (hreach : ∀ j, j ≤ i → w.reachableAt j port = false) :
    (waitForDebugPort w port attempts).2 ≤ attempts ∧
    (waitForDebugPort w port attempts).1 = false := by
  constructor
  · exact waitGo_probes_le w port attempts 0
  · apply waitGo_abort w port i attempts 0 hlt
    · simpa using hflag
    · intro j hj
      simpa using hreach j hj

/-- Witness for C9: spawn failure observed from the first attempt. -/
theorem waitForDebugPort_bounded_witness :
    (waitForDebugPort waitStuck 9222 240).2 ≤ 240 ∧
    (waitForDebugPort waitStuck 9222 240).1 = false :=
  waitForDebugPort_bounded waitStuck 9222 240 0 (by decide) (Or.inl rfl)
    (fun _ _ => rfl)

/-- C5: when tracking is already connected to the current port and that port
answers the probe, calling ensureTabTracking again is a no-op returning
success — twice in a row — and in particular the number of installed
subscription sets is unchanged. -/
theorem ensureTabTracking_idempotent (w : TrackWorld) (s : TrackState)
    (hconn : s.cdpConnected = true)
    (hport : s.cdpPort = some s.currentDebugPort)
    (hreach : w.reachable s.currentDebugPort = true) :
    ensureTabTracking w s = (true, s) ∧
    ensureTabTracking w (ensureTabTracking w s).2 = (true, s) ∧
    (ensureTabTracking w s).2.subscriptionSets = s.subscriptionSets := by
  have h1 : ensureTabTracking w s = (true, s) := by
    unfold ensureTabTracking
    simp [hconn, hport, hreach]
  refine ⟨h1, ?_, ?_⟩
  · rw [h1]
    exact h1
  · rw [h1]

/-- Witness for C5 on a connected state with one tracked tab. -/
theorem ensureTabTracking_idempotent_witness :
    ensureTabTracking trackWorldUp trackConnected = (true, trackConnected) ∧
    ensureTabTracking trackWorldUp
        (ensureTabTracking trackWorldUp trackConnected).2 = (true, trackConnected) ∧
    (ensureTabTracking trackWorldUp trackConnected).2.subscriptionSets =
      trackConnected.subscriptionSets :=
  ensureTabTracking_idempotent trackWorldUp trackConnected rfl rfl rfl

/-- C10: when the initial probe of the current port fails, ensureTabTracking
returns false and leaves the whole tracking state — connection, registry,
initial-id set and recorded port — exactly as it was. -/
theorem ensureTabTracking_probe_fail_frame (w : TrackWorld) (s : TrackState)
    (h : w.reachable s.currentDebugPort = false) :
    ensureTabTracking w s = (false, s) := by
  unfold ensureTabTracking
  simp [h]

/-- Witness for C10: the probe fails against a state with a stale registry. -/
theorem ensureTabTracking_probe_fail_frame_witness :
    ensureTabTracking trackWorldDown trackConnected = (false, trackConnected) :=
  ensureTabTracking_probe_fail_frame trackWorldDown trackConnected rfl

/-- Looking up the freshly set key returns the freshly set entry. -/
theorem mapFind_mapSet_self (id : String) (t : Tab) (m : List (String × Tab)) :
    mapFind id (mapSet id t m) = some t := by
  simp [mapFind, mapSet]

/-- C6: a changed notification for a page target already in the registry
keeps the previous title when the incoming title is empty, keeps the
previous url when the incoming url is empty, and preserves the entry's
createdAt (any real clock value is nonzero) and isInitial flag. -/
theorem changed_merges_preserving (now : Nat) (info : TargetInfo) (s : TrackState)
    (prev : Tab)
    (hfind : mapFind info.targetId s.tabsById = some prev)
    (htype : info.type = "page")
    (hurl : strStartsWith info.url "devtools://" = false)
    (hts : prev.createdAt ≠ 0) :
    mapFind info.targetId (onTargetInfoChanged now info s).tabsById =
      some { id := info.targetId,
             title := if info.title ≠ "" then info.title else prev.title,
             url := if info.url ≠ "" then info.url else prev.url,
             createdAt := prev.createdAt,
             isInitial := prev.isInitial } := by
  unfold onTargetInfoChanged
  rw [if_neg (by simp [htype]), if_neg (by simp [hurl])]
  simp only [hfind, hts, ne_eq, not_false_eq_true, if_true, ite_not]
  rw [mapFind_mapSet_self]

/-- Witness for C6: empty incoming title and url over a tracked entry. -/
theorem changed_merges_preserving_witness :
    mapFind "t1" (onTargetInfoChanged 999 changedEmptyInfo trackConnected).tabsById =
      some { id := "t1", title := "Old title", url := "http://a.example/",
             createdAt := 100, isInitial := true } := by
  have h := changed_merges_preserving 999 changedEmptyInfo trackConnected prevTab
    rfl rfl (by decide) (by decide)
  simpa using h

/-- A successful lookup comes from a binding of the map. -/
theorem mapFind_mem {id : String} {m : List (String × Tab)} {t : Tab}
    (h : mapFind id m = some t) : (id, t) ∈ m := by
  induction m with
  | nil => simp [mapFind] at h
  | cons kv rest ih =>
    by_cases hk : kv.1 = id
    · rw [mapFind, if_pos hk] at h
      cases h
      have hkv : (id, kv.2) = kv := by
        rw [← hk]
      rw [hkv]
      exact List.mem_cons_self kv rest
    · rw [mapFind, if_neg hk] at h
      exact List.mem_cons_of_mem kv (ih h)

/-- Setting a key whose entry satisfies a pointwise property preserves the
property over the whole map. -/
theorem all_mapSet {P : String × Tab → Bool} {m : List (String × Tab)}
    {id : String} {t : Tab}
    (ht : P (id, t) = true) (hm : m.all P = true) : (mapSet id t m).all P = true := by
  rw [List.all_eq_true] at hm ⊢
  intro x hx
  rcases List.mem_cons.mp hx with h | h
  · subst h
    exact ht
  · exact hm x (List.mem_filter.mp h).1

/-- Deleting a key preserves a pointwise property over the whole map. -/
theorem all_mapDelete {P : String × Tab → Bool} {m : List (String × Tab)}
    {id : String}
    (hm : m.all P = true) : (mapDelete id m).all P = true := by
  rw [List.all_eq_true] at hm ⊢
  intro x hx
  exact hm x (List.mem_filter.mp hx).1

/-- The seed loop never inserts an internal-debugger URL. -/
theorem seedTarget_clean {startedAt : Nat} {s : TrackState} {info : TargetInfo}
    (hs : registryClean s = true) :
    registryClean (seedTarget startedAt s info) = true := by
  unfold seedTarget
  by_cases h1 : info.type ≠ "page"
  · rw [if_pos h1]
    exact hs
  · rw [if_neg h1]
    by_cases h2 : strStartsWith info.url "devtools://" = true
    · rw [if_pos h2]
      exact hs
    · rw [if_neg h2]
      unfold registryClean at hs ⊢
      refine all_mapSet ?_ hs
      simp [cleanPair, Bool.not_eq_true, Bool.not_eq_true] at h2 ⊢
      exact h2

/-- The created handler never inserts an internal-debugger URL. -/
theorem onTargetCreated_clean {now : Nat} {info : TargetInfo} {s : TrackState}
    (hs : registryClean s = true) :
    registryClean (onTargetCreated now info s) = true := by
  unfold onTargetCreated
  by_cases h1 : info.type ≠ "page"
  · rw [if_pos h1]
    exact hs
  · rw [if_neg h1]
    by_cases h2 : strStartsWith info.url "devtools://" = true
    · rw [if_pos h2]
      exact hs
    · rw [if_neg h2]
      unfold registryClean at hs ⊢
      refine all_mapSet ?_ hs
      simp [cleanPair, Bool.not_eq_true] at h2 ⊢
      exact h2

/-- The changed handler never produces an internal-debugger URL: a nonempty
incoming url passed the filter, and an empty one falls back to the previous
entry, which is clean by the registry invariant (or to the empty string). -/
theorem onTargetInfoChanged_clean {now : Nat} {info : TargetInfo} {s : TrackState}
    (hs : registryClean s = true) :
    registryClean (onTargetInfoChanged now info s) = true := by
  unfold onTargetInfoChanged
  by_cases h1 : info.type ≠ "page"
  · rw [if_pos h1]
    exact hs
  · rw [if_neg h1]
    by_cases h2 : strStartsWith info.url "devtools://" = true
    · rw [if_pos h2]
      exact hs
    · rw [if_neg h2]
      unfold registryClean at hs ⊢
      refine all_mapSet ?_ hs
      have h2f : strStartsWith info.url "devtools://" = false := by
        simpa using h2
      simp only [cleanPair]
      by_cases hu : info.url ≠ ""
      · rw [if_pos hu, h2f]
        rfl
      · rw [if_neg hu]
        cases hfind : mapFind info.targetId s.tabsById with
        | none =>
          simp only [hfind]
          decide
        | some p =>
          simp only [hfind]
          have hmem := mapFind_mem hfind
          have hp := (List.all_eq_true.mp hs) _ hmem
          simpa [cleanPair] using hp

/-- The destroyed handler removes entries only. -/
theorem onTargetDestroyed_clean {tid : String} {s : TrackState}
    (hs : registryClean s = true) :
    registryClean (onTargetDestroyed tid s) = true := by
  unfold onTargetDestroyed
  by_cases h : tid = ""
  · rw [if_pos h]
    exact hs
  · rw [if_neg h]
    exact all_mapDelete hs

/-- Every lifecycle notification preserves the filter invariant. -/
theorem stepEvent_clean {s : TrackState} {ev : CdpEvent}
    (hs : registryClean s = true) : registryClean (stepEvent s ev) = true := by
  cases ev with
  | created now info => exact onTargetCreated_clean hs
  | changed now info => exact onTargetInfoChanged_clean hs
  | destroyed tid => exact onTargetDestroyed_clean hs

/-- The whole seed loop preserves the filter invariant. -/
theorem foldl_seed_clean (startedAt : Nat) (infos : List TargetInfo) :
    ∀ s : TrackState, registryClean s = true →
      registryClean (infos.foldl (seedTarget startedAt) s) = true := by
  induction infos with
  | nil =>
    intro s hs
    simpa using hs
  | cons hd tl ih =>
    intro s hs
    exact ih _ (seedTarget_clean hs)

/-- Any sequence of lifecycle notifications preserves the filter invariant. -/
theorem foldl_step_clean (events : List CdpEvent) :
    ∀ s : TrackState, registryClean s = true →
      registryClean (events.foldl stepEvent s) = true := by
  induction events with
  | nil =>
    intro s hs
    simpa using hs
  | cons hd tl ih =>
    intro s hs
    exact ih _ (stepEvent_clean hs)

/-- The registry invariant only reads the tabsById field. -/
theorem registryClean_mk (a : Nat) (b : Bool) (c : Option Nat) (d : Nat)
    (e : List (String × Tab)) (f : List String) (g : Nat) :
    registryClean ⟨a, b, c, d, e, f, g⟩ = e.all cleanPair := rfl

/-- One run of ensureTabTracking preserves the filter invariant: early
returns keep the registry, a failed connection clears it, and a successful
restart seeds it from an empty registry through the filtering seed loop. -/
theorem ensureTabTracking_clean (w : TrackWorld) (s : TrackState)
    (hs : registryClean s = true) :
    registryClean (ensureTabTracking w s).2 = true := by
  unfold ensureTabTracking
  by_cases h1 : w.reachable s.currentDebugPort = true
  · rw [if_neg (by simp [h1])]
    by_cases h2 : s.cdpConnected = true ∧ s.cdpPort = some s.currentDebugPort
    · rw [if_pos h2]
      exact hs
    · rw [if_neg h2]
      by_cases h3 : w.connectOk = true
      · rw [if_neg (by simp [h3])]
        rw [registryClean_mk]
        exact foldl_seed_clean w.now w.targetInfos _ rfl
      · have h3f : w.connectOk = false := by
          simpa using h3
        rw [if_pos (by simp [h3f])]
        rfl
  · have h1f : w.reachable s.currentDebugPort = false := by
      simpa using h1
    rw [if_pos (by simp [h1f])]
    exact hs

/-- C7: after any tracking (re)start over any seed snapshot, followed by any
sequence of lifecycle notifications, no registry entry has a URL with the
internal-debugger prefix — provided the starting registry satisfied the same
invariant (as the empty registry does). -/
theorem tracking_filter_invariant (w : TrackWorld) (s : TrackState)
    (events : List CdpEvent)
    (hs : registryClean s = true) :
    registryClean (events.foldl stepEvent (ensureTabTracking w s).2) = true :=
  foldl_step_clean events _ (ensureTabTracking_clean w s hs)

/-- Witness for C7: a fresh start over a snapshot containing a devtools
target, followed by created/changed/destroyed notifications that include a
devtools-URL change. -/
theorem tracking_filter_invariant_witness :
    registryClean
      ([CdpEvent.created 60
          { targetId := "t2", type := "page", title := "New", url := "http://b.example/" },
        CdpEvent.changed 61
          { targetId := "t2", type := "page", title := "DevTools",
            url := "devtools://devtools/inspector.html" },
        CdpEvent.destroyed "t1"].foldl stepEvent
        (ensureTabTracking trackWorldUp (stopTabTracking trackConnected)).2) = true :=
  tracking_filter_invariant trackWorldUp (stopTabTracking trackConnected) _ rfl

/-- C4 counterexample: on a non-Windows platform with no enumerated chrome
process but a SingletonLock artifact present under the user-data root, the
lock signal fires yet the conflict check used by ensureChromeDebugging
reports no conflict — so the claimed platform-independent OR of the two
signals is false. -/
theorem conflict_check_counterexample :
    envLinux.platform ≠ Platform.win32 ∧
    chromeProfileLikelyLocked envLinux resRootOnly fsLockOnly = true ∧
    chromeProcessesRunning envLinux.platform procIdle = false ∧
    chromeRunningCheck envLinux resRootOnly procIdle fsLockOnly = false := by
  refine ⟨by decide, by rfl, by rfl, by rfl⟩

/-- C4 (corrected): the conflict check reports a conflict iff OS process
enumeration fires, or — on Windows only — a singleton-lock artifact (lock
file, socket or cookie, under the user-data root or the selected profile
subdirectory) is present; and a failure of the enumeration commands degrades
the process signal to "not running" on every platform rather than
propagating an error (as does a failure inside the lock check). -/
theorem conflict_check_corrected (e : Env) (res : ProfileResolution)
    (pw : ProcWorld) (fs : FsWorld) :
    (chromeRunningCheck e res pw fs = true ↔
      (chromeProcessesRunning e.platform pw = true ∨
        (e.platform = Platform.win32 ∧ chromeProfileLikelyLocked e res fs = true))) ∧
    (fs.lockCheckThrows = false →
      (chromeProfileLikelyLocked e res fs = true ↔
        ∃ c ∈ lockCandidates e res, fs.fsExists c = true)) ∧
    ((pw.powershellN = none ∨ pw.powershellN = some none) →
      pw.tasklistOut = none → pw.pgrepOut = none →
      chromeProcessesRunning e.platform pw = false) := by
  refine ⟨?_, ?_, ?_⟩
  · simp [chromeRunningCheck, Bool.or_eq_true, Bool.and_eq_true, decide_eq_true_iff]
  · intro hthrow
    simp [chromeProfileLikelyLocked, hthrow, List.any_eq_true]
  · intro hps htl hpg
    cases e.platform with
    | win32 =>
      rcases hps with h | h <;> simp [chromeProcessesRunning, h, htl]
    | darwin => simp [chromeProcessesRunning, hpg]
    | linux => simp [chromeProcessesRunning, hpg]

/-- Witness for the corrected C4: enumeration commands all unavailable, and a
lock artifact visible to the lock signal. -/
theorem conflict_check_corrected_witness :
    chromeProcessesRunning envLinux.platform
      { powershellN := none, tasklistOut := none, pgrepOut := none } = false ∧
    (chromeProfileLikelyLocked envLinux resRootOnly fsLockOnly = true ↔
      ∃ c ∈ lockCandidates envLinux resRootOnly, fsLockOnly.fsExists c = true) :=
  ⟨(conflict_check_corrected envLinux resRootOnly
      { powershellN := none, tasklistOut := none, pgrepOut := none } fsLockOnly).2.2
      (Or.inl rfl) rfl rfl,
   (conflict_check_corrected envLinux resRootOnly procIdle fsLockOnly).2.1 rfl⟩

end DeepWork
